import Mathlib

/-!
Verification of the Soluna Dial HUD module (a Foundry VTT time / calendar /
weather / day-night dial overlay).  The definitions below are a shallow
embedding of the JavaScript source: `SolunaDial` (the main class) and
`SolunaDialSettings` (the settings registration table).  JS numbers are
modelled as rationals (reals where the code multiplies by `Math.PI`), JS
strings as `String`, the PIXI display list of the main container as a
`List` of element identities, and fallible collaborators as `Except`.
-/

namespace SolunaDial

/-- A JS value passed to a setter through the settings bridge: either a
number (modelled as a rational) or any non-number value, collapsed to
`JSVal.other` (the setters only branch on `typeof x === 'number'`). -/
inductive JSVal where
  | num (q : ℚ)
  | other
deriving DecidableEq

/-- JS `Math.round`: rounds half toward positive infinity. -/
def jsRound (q : ℚ) : ℤ := ⌊q + 1 / 2⌋

/-- JS truncation toward zero of a rational (the integer part used by the
JS `%` operator on numbers). -/
def jsTrunc (q : ℚ) : ℤ := if 0 ≤ q then ⌊q⌋ else ⌈q⌉

/-- JS `%` (remainder) on numbers: `x % y = x - y * trunc(x / y)`, the
result carrying the sign of the dividend. -/
def jsMod (x y : ℚ) : ℚ := x - y * (jsTrunc (x / y) : ℚ)

/-- JS `%` on integer-valued numbers: truncated remainder, sign of the
dividend (`Int.tmod` has exactly these semantics). -/
def jsIntMod (a b : ℤ) : ℤ := Int.tmod a b

/- ### ScaleCalculator: `_calculateScaledDimensions` -/

/-- Base (scale 1.0) dimension constants from the `SolunaDial` constructor. -/
def BASE_HUD_WIDTH : ℚ := 400
def BASE_PRIMARY_FONT_SIZE : ℚ := 18
def BASE_ICON_FONT_SIZE : ℚ := 18
def BASE_TIME_BAR_TEXT_TOP_PADDING : ℚ := 7
def BASE_TIME_BAR_TEXT_BOTTOM_PADDING : ℚ := 7
def BASE_MAIN_HUD_AREA_HEIGHT : ℚ := 150
def BASE_CORNER_RADIUS : ℚ := 15
def BASE_PADDING : ℚ := 10
def BASE_BUTTON_PADDING : ℚ := 5
def BASE_MARKER_SIZE : ℚ := 10
def BASE_WEATHER_TEXT_PADDING_TOP : ℚ := 5

/-- The working (scaled) dimensions computed by `_calculateScaledDimensions`. -/
structure ScaledDimensions where
  HUD_WIDTH : ℤ
  primaryFontSize : ℤ
  calendarFontSize : ℤ
  iconFontSize : ℤ
  TIME_BAR_TEXT_TOP_PADDING : ℤ
  TIME_BAR_TEXT_BOTTOM_PADDING : ℤ
  TIME_BAR_HEIGHT : ℤ
  MAIN_HUD_AREA_HEIGHT : ℤ
  TOTAL_HUD_HEIGHT : ℤ
  CORNER_RADIUS : ℤ
  PADDING : ℤ
  BUTTON_PADDING : ℤ
  DIAL_CENTER_X : ℚ
  MAIN_HUD_AREA_Y_OFFSET : ℤ
  DIAL_RADIUS : ℚ
  DIAL_ARC_CENTER_Y : ℤ
  MARKER_SIZE : ℤ
  weatherTextPaddingTop : ℤ
deriving DecidableEq

/-- Source `SolunaDial._calculateScaledDimensions`, as a pure function of the
current `_globalUiScale`.  Every line mirrors one assignment of the source
method. -/
def calculateScaledDimensions (scale : ℚ) : ScaledDimensions :=
  let HUD_WIDTH := jsRound (BASE_HUD_WIDTH * scale)
  let primaryFontSize := max 8 (jsRound (BASE_PRIMARY_FONT_SIZE * scale))
  let calendarFontSize := primaryFontSize
  let iconFontSize := max 10 (jsRound (BASE_ICON_FONT_SIZE * scale))
  let TIME_BAR_TEXT_TOP_PADDING := jsRound (BASE_TIME_BAR_TEXT_TOP_PADDING * scale)
  let TIME_BAR_TEXT_BOTTOM_PADDING := jsRound (BASE_TIME_BAR_TEXT_BOTTOM_PADDING * scale)
  let TIME_BAR_HEIGHT := TIME_BAR_TEXT_TOP_PADDING + primaryFontSize + TIME_BAR_TEXT_BOTTOM_PADDING
  let MAIN_HUD_AREA_HEIGHT := jsRound (BASE_MAIN_HUD_AREA_HEIGHT * scale)
  let TOTAL_HUD_HEIGHT := TIME_BAR_HEIGHT + MAIN_HUD_AREA_HEIGHT
  let CORNER_RADIUS := jsRound (BASE_CORNER_RADIUS * scale)
  let PADDING := jsRound (BASE_PADDING * scale)
  let BUTTON_PADDING := jsRound (BASE_BUTTON_PADDING * scale)
  let DIAL_CENTER_X := (HUD_WIDTH : ℚ) / 2
  let MAIN_HUD_AREA_Y_OFFSET := TIME_BAR_HEIGHT
  let DIAL_RADIUS := ((MAIN_HUD_AREA_HEIGHT : ℚ) - (PADDING : ℚ)) * (8 / 10)
  let DIAL_ARC_CENTER_Y := MAIN_HUD_AREA_Y_OFFSET
  let MARKER_SIZE := max 5 (jsRound (BASE_MARKER_SIZE * scale))
  let weatherTextPaddingTop := jsRound (BASE_WEATHER_TEXT_PADDING_TOP * scale)
  { HUD_WIDTH := HUD_WIDTH
    primaryFontSize := primaryFontSize
    calendarFontSize := calendarFontSize
    iconFontSize := iconFontSize
    TIME_BAR_TEXT_TOP_PADDING := TIME_BAR_TEXT_TOP_PADDING
    TIME_BAR_TEXT_BOTTOM_PADDING := TIME_BAR_TEXT_BOTTOM_PADDING
    TIME_BAR_HEIGHT := TIME_BAR_HEIGHT
    MAIN_HUD_AREA_HEIGHT := MAIN_HUD_AREA_HEIGHT
    TOTAL_HUD_HEIGHT := TOTAL_HUD_HEIGHT
    CORNER_RADIUS := CORNER_RADIUS
    PADDING := PADDING
    BUTTON_PADDING := BUTTON_PADDING
    DIAL_CENTER_X := DIAL_CENTER_X
    MAIN_HUD_AREA_Y_OFFSET := MAIN_HUD_AREA_Y_OFFSET
    DIAL_RADIUS := DIAL_RADIUS
    DIAL_ARC_CENTER_Y := DIAL_ARC_CENTER_Y
    MARKER_SIZE := MARKER_SIZE
    weatherTextPaddingTop := weatherTextPaddingTop }

/- ### SettingsBridge: declared numeric ranges (solunaDialSettings.js) -/

/-- A numeric range declared in a `game.settings.register` call. -/
structure SettingRange where
  min : ℚ
  max : ℚ
  step : ℚ
deriving DecidableEq

/-- Range declared for the `globalUiSize` setting. -/
def globalUiSizeRange : SettingRange := { min := 2 / 10, max := 3, step := 5 / 100 }

/-- Default declared for the `globalUiSize` setting. -/
def globalUiSizeDefault : ℚ := 1

/-- Range declared for the `customDialImageAngleOffset` setting. -/
def customDialImageAngleOffsetRange : SettingRange := { min := 0, max := 360, step := 1 }

/-- Default declared for the `customDialImageAngleOffset` setting. -/
def customDialImageAngleOffsetDefault : ℚ := 90

/- ### Opacity setters (C5) -/

/-- Result of calling an opacity setter: the stored opacity afterwards and
whether a `console.warn` rejection was emitted. -/
structure SetterResult where
  value : ℚ
  warned : Bool
deriving DecidableEq

/-- Source `typeof alpha === 'number' && alpha >= 0 && alpha <= 1`. -/
def validOpacity : JSVal → Bool
  | .num q => decide (0 ≤ q ∧ q ≤ 1)
  | .other => false

/-- Source `setTopBarOpacity`: accepts a number in `[0,1]` (then redraws the bar);
anything else is ignored with NO warning (the method has no else branch). -/
def setTopBarOpacity (alpha : JSVal) (cur : ℚ) : SetterResult :=
  match alpha with
  | .num q => if 0 ≤ q ∧ q ≤ 1 then { value := q, warned := false }
              else { value := cur, warned := false }
  | .other => { value := cur, warned := false }

/-- Source `setDialImageOpacity`: accepts a number in `[0,1]`; otherwise warns and
keeps the prior value. -/
def setDialImageOpacity (alpha : JSVal) (cur : ℚ) : SetterResult :=
  match alpha with
  | .num q => if 0 ≤ q ∧ q ≤ 1 then { value := q, warned := false }
              else { value := cur, warned := true }
  | .other => { value := cur, warned := true }

/-- Source `setDialMarkerOpacity`: accepts a number in `[0,1]`; otherwise warns and
keeps the prior value. -/
def setDialMarkerOpacity (alpha : JSVal) (cur : ℚ) : SetterResult :=
  match alpha with
  | .num q => if 0 ≤ q ∧ q ≤ 1 then { value := q, warned := false }
              else { value := cur, warned := true }
  | .other => { value := cur, warned := true }

/-- Source `setGlobalFontOpacity`: accepts a number in `[0,1]` (then repropagates
the alpha to the text elements); otherwise warns and keeps the prior value. -/
def setGlobalFontOpacity (alpha : JSVal) (cur : ℚ) : SetterResult :=
  match alpha with
  | .num q => if 0 ≤ q ∧ q ≤ 1 then { value := q, warned := false }
              else { value := cur, warned := true }
  | .other => { value := cur, warned := true }

/- ### `setGlobalUiSize` (C10) -/

/-- The slice of instance state touched by `setGlobalUiSize`:
the stored `_globalUiScale`, the scaled dimensions, and a counter of how
many times `_redrawAllElements` has run (to observe the redraw). -/
structure HudSizeState where
  globalUiScale : ℚ
  dims : ScaledDimensions
  redrawCount : ℕ
deriving DecidableEq

/-- Source `setGlobalUiSize`: accepts any number strictly greater than 0 (the
method checks only `typeof scale === 'number' && scale > 0`, not the
declared registry range), stores it, recomputes dimensions and redraws;
otherwise warns and leaves all state unchanged. -/
def setGlobalUiSize (scale : JSVal) (st : HudSizeState) : HudSizeState × Bool :=
  match scale with
  | .num q =>
      if 0 < q then
        ({ globalUiScale := q
           dims := calculateScaledDimensions q
           redrawCount := st.redrawCount + 1 }, false)
      else (st, true)
  | .other => (st, true)

/- ### ClockStateView: `updateTimeDisplay` (C3, C4) -/

/-- Source `Math.floor(worldTime / 3600) % 24` — the hour shown in the time bar. -/
def derivedHours (worldTime : ℚ) : ℤ := jsIntMod ⌊worldTime / 3600⌋ 24

/-- Source `Math.floor((worldTime % 3600) / 60)` — the minute shown in the time bar. -/
def derivedMinutes (worldTime : ℚ) : ℤ := ⌊jsMod worldTime 3600 / 60⌋

/-- Source `Math.floor(worldTime % 60)` — the second shown in the time bar. -/
def derivedSeconds (worldTime : ℚ) : ℤ := ⌊jsMod worldTime 60⌋

/-- JS `String(...).padStart(2, '0')`: prepend `'0'` characters until the
string is at least two characters long. -/
def padStart2 (s : String) : String :=
  if s.length < 2 then String.mk (List.replicate (2 - s.length) '0') ++ s else s

/-- The `timeString` built by `updateTimeDisplay` and assigned to the time
text node: always `HH:MM`, with `:SS` appended when `_displaySeconds` is
set. -/
def renderTime (worldTime : ℚ) (displaySeconds : Bool) : String :=
  let timeString :=
    padStart2 (toString (derivedHours worldTime)) ++ ":" ++
      padStart2 (toString (derivedMinutes worldTime))
  if displaySeconds then
    timeString ++ ":" ++ padStart2 (toString (derivedSeconds worldTime))
  else timeString

/-- The zero-padded `HH:MM`/`HH:MM:SS` string the spec describes, built
from an hour, minute and second given as natural numbers (spec-side
definition, to be compared with `renderTime`). -/
def specTimeString (h m s : ℕ) (displaySeconds : Bool) : String :=
  padStart2 (toString h) ++ ":" ++ padStart2 (toString m) ++
    (if displaySeconds then (":" ++ padStart2 (toString s)) else (""))

/- ### `_updateDialRotation` (C1) -/

/-- JS truncation toward zero on the reals (for the JS `%` operator where
the code divides by `Math.PI`-free constants but the result feeds a real
rotation). -/
noncomputable def jsTruncR (x : ℝ) : ℤ := if 0 ≤ x then ⌊x⌋ else ⌈x⌉

/-- JS `%` (remainder) on real-valued numbers. -/
noncomputable def jsModR (x y : ℝ) : ℝ := x - y * (jsTruncR (x / y) : ℝ)

/-- JS `x || d` on numbers: `x` when truthy (non-zero), else `d`.  Used by
the source as `game.settings.get(..., 'customDialImageAngleOffset') || 90`. -/
noncomputable def jsNumOr (x d : ℝ) : ℝ := if x = 0 then d else x

/-- Degrees-to-radians conversion, `deg * Math.PI / 180`. -/
noncomputable def degreesToRadians (deg : ℝ) : ℝ := deg * Real.pi / 180

/-- Source `_updateDialRotation`: the rotation assigned to the dial sprite, as a
function of `game.time.worldTime` and the stored
`customDialImageAngleOffset` setting.  Mirrors the source line by line:
`currentHour = (worldTime / 3600) % 24` (note: no `Math.floor`),
`baseRotation = (currentHour / 24) * Math.PI * 2`,
`angleOffsetDegrees = stored || 90`,
`offsetRotation = (angleOffsetDegrees * Math.PI) / 180`. -/
noncomputable def updateDialRotation (worldTime storedAngleOffset : ℝ) : ℝ :=
  let currentHour := jsModR (worldTime / 3600) 24
  let baseRotation := currentHour / 24 * Real.pi * 2
  let angleOffsetDegrees := jsNumOr storedAngleOffset 90
  let offsetRotation := angleOffsetDegrees * Real.pi / 180
  baseRotation + offsetRotation

/-- The rotation formula as the spec states it (spec-side definition, to
be compared with `updateDialRotation`): `(hour/24)*2π + degreesToRadians
(angleOffset)`. -/
noncomputable def claimRotation (hour angleOffset : ℝ) : ℝ :=
  hour / 24 * (2 * Real.pi) + degreesToRadians angleOffset

/- ### SceneRenderer: the main container's display list (C2) -/

/-- Identities of the drawable primitives the draw methods put into
`_mainContainer.children` (instance fields of the same names, with the
leading underscore dropped). -/
inductive Elem where
  | timeBarGraphic
  | mainHudAreaGraphic
  | radialDialBackground
  | dialMarker
  | timeCalendarContainer
  | rewindHourButton
  | rewindDayButton
  | advanceHourButton
  | advanceDayButton
  | dialGradientContainer
  | weatherText
  | dialInteractiveArea
deriving DecidableEq

/-- PIXI `Container.addChild` on a child that may already be parented:
the child is removed from its current position and pushed to the end of
the display list.  Also models destroy-then-recreate-then-add, since the
recreated primitive occupies the same identity slot. -/
def addChildPixi (c : List Elem) (e : Elem) : List Elem := c.erase e ++ [e]

/-- Source `_drawTimeBar`: clears the existing graphic in place, or creates and
appends it on first draw. -/
def drawTimeBar (c : List Elem) : List Elem :=
  if Elem.timeBarGraphic ∈ c then c else c ++ [Elem.timeBarGraphic]

/-- Source `_drawMainHudArea`: clears in place, or creates and appends. -/
def drawMainHudArea (c : List Elem) : List Elem :=
  if Elem.mainHudAreaGraphic ∈ c then c else c ++ [Elem.mainHudAreaGraphic]

/-- Source `_drawRadialDialBackground`: clears or creates the graphic, then calls
`addChild` unconditionally (re-appending it if it was already a child). -/
def drawRadialDialBackground (c : List Elem) : List Elem :=
  addChildPixi c Elem.radialDialBackground

/-- Source `_drawDialMarker`: clears or creates, then `addChild` unconditionally. -/
def drawDialMarker (c : List Elem) : List Elem :=
  addChildPixi c Elem.dialMarker

/-- Source `_drawTimeAndCalendarGroup`: destroys the old container (with its text
children) and appends a fresh one. -/
def drawTimeAndCalendarGroup (c : List Elem) : List Elem :=
  addChildPixi c Elem.timeCalendarContainer

/-- Source `_drawTimeAdvanceControls`: destroys the four old buttons, then — for
GMs only — creates and appends rewind-hour, rewind-day, advance-hour and
advance-day in that order. -/
def drawTimeAdvanceControls (isGM : Bool) (c : List Elem) : List Elem :=
  let c := ((((c.erase Elem.rewindHourButton).erase Elem.rewindDayButton).erase
      Elem.advanceHourButton).erase Elem.advanceDayButton)
  if isGM then
    c ++ [Elem.rewindHourButton, Elem.rewindDayButton,
          Elem.advanceHourButton, Elem.advanceDayButton]
  else c

/-- Source `_createDialInteractiveArea`: for GMs, destroys any existing invisible
hit-test region and appends a fresh one; no-op for non-GMs. -/
def createDialInteractiveArea (isGM : Bool) (c : List Elem) : List Elem :=
  if isGM then (c.erase Elem.dialInteractiveArea) ++ [Elem.dialInteractiveArea]
  else c

/-- Source `_createDialGradientAndMask`: returns early when `DIAL_RADIUS <= 0`;
otherwise destroys the old gradient container and either appends the new
masked sprite container (texture loaded) or degrades to creating only the
GM hit-test region (texture missing or load error). -/
def createDialGradientAndMask (isGM textureOk radiusPos : Bool) (c : List Elem) :
    List Elem :=
  if radiusPos then
    let c := c.erase Elem.dialGradientContainer
    if textureOk then c ++ [Elem.dialGradientContainer]
    else createDialInteractiveArea isGM c
  else c

/-- Source `_ensureWeatherTextOnTop`: if the weather text exists, `setChildIndex`
moves it to the last (topmost) position of the display list. -/
def ensureWeatherTextOnTop (c : List Elem) : List Elem :=
  if Elem.weatherText ∈ c then (c.erase Elem.weatherText) ++ [Elem.weatherText]
  else c

/-- Source `_drawWeatherText`: destroys the old weather text, appends a fresh
one, then calls `_ensureWeatherTextOnTop`. -/
def drawWeatherText (c : List Elem) : List Elem :=
  ensureWeatherTextOnTop ((c.erase Elem.weatherText) ++ [Elem.weatherText])

/-- Source `_redrawAllElements`: destroys the interactive area, redraws every
primitive in source order, and finishes with `_ensureWeatherTextOnTop`
(the deferred `setTimeout` call runs the same reassertion once more). -/
def redrawAllElements (isGM textureOk radiusPos : Bool) (c : List Elem) :
    List Elem :=
  ensureWeatherTextOnTop
    (createDialInteractiveArea isGM
      (drawWeatherText
        (createDialGradientAndMask isGM textureOk radiusPos
          (drawTimeAdvanceControls isGM
            (drawTimeAndCalendarGroup
              (drawDialMarker
                (drawRadialDialBackground
                  (drawMainHudArea
                    (drawTimeBar (c.erase Elem.dialInteractiveArea))))))))))

/-- Source `updateTimeDisplay` only rewrites text inside `_timeCalendarContainer`
and re-centers the group; it never touches `_mainContainer.children`. -/
def updateTimeDisplayChildren (c : List Elem) : List Elem := c

/-- Source `updateCalendarDisplay` likewise leaves the display list unchanged. -/
def updateCalendarDisplayChildren (c : List Elem) : List Elem := c

/-- Source `updateWeatherDisplay`: returns early when the weather text does not
exist; otherwise rewrites its text and calls `_ensureWeatherTextOnTop`. -/
def updateWeatherDisplayChildren (c : List Elem) : List Elem :=
  if Elem.weatherText ∈ c then ensureWeatherTextOnTop c else c

/-- The display-list effect of `setGlobalUiSize` (a scale change): full
redraw, then the time / calendar / weather refreshes. -/
def scaleChangeChildren (isGM textureOk radiusPos : Bool) (c : List Elem) :
    List Elem :=
  updateWeatherDisplayChildren
    (updateCalendarDisplayChildren
      (updateTimeDisplayChildren (redrawAllElements isGM textureOk radiusPos c)))

/-- The display-list effect of `setGlobalFontFamily` (a font change):
same full redraw + refresh sequence. -/
def fontChangeChildren (isGM textureOk radiusPos : Bool) (c : List Elem) :
    List Elem :=
  updateWeatherDisplayChildren
    (updateCalendarDisplayChildren
      (updateTimeDisplayChildren (redrawAllElements isGM textureOk radiusPos c)))

/-- The display-list effect of an incoming socket weather update:
`updateWeatherDisplay` followed by an explicit `_ensureWeatherTextOnTop`. -/
def weatherSocketChildren (c : List Elem) : List Elem :=
  ensureWeatherTextOnTop (updateWeatherDisplayChildren c)

/- ### WeatherState: dialog, storage, broadcast (C6, C8) -/

/-- JS `String.prototype.toUpperCase` restricted to the ASCII range
(character-wise upper-casing). -/
def jsToUpperCase (s : String) : String := String.mk (s.data.map Char.toUpper)

/-- JS `String.prototype.toLowerCase` restricted to the ASCII range. -/
def jsToLowerCase (s : String) : String := String.mk (s.data.map Char.toLower)

/-- JS `a || b` on strings: the empty string is falsy. -/
def jsStrOr (a b : String) : String := if a = "" then b else a

/-- JS `String.prototype.trim`: strip whitespace from both ends. -/
def jsTrim (s : String) : String :=
  String.mk (((s.data.dropWhile Char.isWhitespace).reverse.dropWhile
    Char.isWhitespace).reverse)

/-- The quick-select weather options offered by `_showWeatherChangeDialog`. -/
def weatherOptions : List String :=
  ["Clear", "Cloudy", "Overcast", "Rainy", "Stormy", "Foggy",
   "Snowy", "Windy", "Hot", "Cold", "Humid", "Dry"]

/-- Which dropdown option `_showWeatherChangeDialog` marks `selected`:
the first option whose lower-cased text equals the lower-cased current
weather (`weather.toLowerCase() === currentWeather.toLowerCase()`). -/
def selectedWeatherOption (currentWeather : String) : Option String :=
  weatherOptions.find? (fun w => jsToLowerCase w == jsToLowerCase currentWeather)

/-- The `Update Weather` button callback of `_showWeatherChangeDialog`:
`newWeather = customInput.trim() || selectValue`; the new label is applied
(returned as `some`) exactly when it is non-empty and differs — by strict,
case-sensitive `!==` — from the current label. -/
def weatherDialogSubmit (customInputRaw selectValue currentWeather : String) :
    Option String :=
  let customInput := jsTrim customInputRaw
  let newWeather := jsStrOr customInput selectValue
  if newWeather ≠ "" ∧ newWeather ≠ currentWeather then some newWeather else none

/-- The weather-relevant instance state: the stored `_currentWeather`
label, the text currently shown by `_weatherText`, and whether the weather
text primitive exists. -/
structure WeatherView where
  currentWeather : String
  displayedText : String
  hasWeatherText : Bool
deriving DecidableEq

/-- Source `updateWeatherDisplay(newStatus)`: returns early when `_weatherText`
is missing; stores `newStatus` when it is a string; always renders the
stored label upper-cased. -/
def updateWeatherDisplay (newStatus : Option String) (st : WeatherView) :
    WeatherView :=
  if st.hasWeatherText then
    let cur := match newStatus with
      | some s => s
      | none => st.currentWeather
    { st with currentWeather := cur, displayedText := jsToUpperCase cur }
  else st

/-- A message on the `module.soluna-dial` socket channel. -/
structure SocketData where
  type : String
  weather : String
  userId : String
deriving DecidableEq

/-- The socket handler installed in the constructor: a broadcast is applied
only when its type is `weather-update` AND its `userId` differs from the
local user's id (self-echo suppression); it then stores the new label and
refreshes the display. -/
def socketWeatherHandler (data : SocketData) (localUserId : String)
    (st : WeatherView) : WeatherView :=
  if data.type = "weather-update" ∧ data.userId ≠ localUserId then
    updateWeatherDisplay (some data.weather)
      { st with currentWeather := data.weather }
  else st

/- ### ClockStateView: `updateCalendarDisplay` (C9) -/

/-- The display object returned by `SimpleCalendar.api.currentDateTimeDisplay`,
with JS-falsy (missing or empty) string fields modelled as `""`.  The
source fields `yearPrefix` / `yearPostfix` are named `yearPre` / `yearPost`
here. -/
structure SCDateTime where
  date : String
  day : String
  monthName : String
  year : String
  yearPre : String
  yearPost : String
deriving DecidableEq

/-- The calendar collaborator as `updateCalendarDisplay` sees it: absent or
inactive, or active with a call that either raises or returns `null` /
a display object. -/
inductive CalendarProvider where
  | inactive
  | active (result : Except Unit (Option SCDateTime))

/-- JS `replace(/,\s*$/, '')`: removes one trailing comma together with
the whitespace following it, if the string ends that way. -/
def stripTrailingCommaWs (s : String) : String :=
  let rev := s.data.reverse
  let rest := rev.dropWhile Char.isWhitespace
  match rest with
  | ',' :: rest2 => String.mk rest2.reverse
  | _ => s

/-- The composed date string of the full-fields branch:
`` `${day} ${monthName}, ${yearPrefix}${year}${yearPostfix}`.trim().replace(/,\s*$/, "") ``. -/
def composeDate (dt : SCDateTime) : String :=
  stripTrailingCommaWs
    (jsTrim (dt.day ++ " " ++ dt.monthName ++ ", " ++ dt.yearPre ++ dt.year ++ dt.yearPost))

/-- Source `updateCalendarDisplay`: the string assigned to `_calendarText.text`.
Inactive module → `SC not active`; provider raises → `SC: API Err` (the
`try`/`catch`); provider returns `null` → `SC: No object`; full
day/month/year fields → the composed date; otherwise a falsy `date` field
→ `SC: No date`, and a truthy one is shown as-is.  Total: no collaborator
failure escapes. -/
def updateCalendarDisplay (p : CalendarProvider) : String :=
  match p with
  | .inactive => "SC not active"
  | .active (.error _) => "SC: API Err"
  | .active (.ok none) => "SC: No object"
  | .active (.ok (some dt)) =>
      if dt.day ≠ "" ∧ dt.monthName ≠ "" ∧ dt.year ≠ "" then composeDate dt
      else if dt.date = "" then ("SC: No date")
      else dt.date

/-!
## Theorems settling the claims
-/

/-- Claim C7 (confirmed): for every uiScale, after recomputing scaled
dimensions the primary font size is at least 8, the icon font size at
least 10 and the marker size at least 5 — the `Math.max` floors hold for
every scale, in particular as the scale approaches 0. -/
theorem scaledDimensions_floors (scale : ℚ) :
    8 ≤ (calculateScaledDimensions scale).primaryFontSize ∧
    10 ≤ (calculateScaledDimensions scale).iconFontSize ∧
    5 ≤ (calculateScaledDimensions scale).MARKER_SIZE := by
  refine ⟨?_, ?_, ?_⟩ <;>
    simp only [calculateScaledDimensions] <;>
    exact le_max_left _ _

/-- Claim C10 (confirmed): `setGlobalUiSize` accepts every positive
number — including values beyond the declared `globalUiSize` registry
range — storing the scale, recomputing the dimensions and redrawing,
while non-numbers and values `≤ 0` are rejected with a warning and the
state left unchanged. -/
theorem setGlobalUiSize_accepts_any_positive (st : HudSizeState) (q : ℚ) :
    (0 < q →
      setGlobalUiSize (JSVal.num q) st =
        ({ globalUiScale := q
           dims := calculateScaledDimensions q
           redrawCount := st.redrawCount + 1 }, false)) ∧
    (q ≤ 0 → setGlobalUiSize (JSVal.num q) st = (st, true)) ∧
    setGlobalUiSize JSVal.other st = (st, true) ∧
    (globalUiSizeRange.max < q →
      (setGlobalUiSize (JSVal.num q) st).1.globalUiScale = q ∧
        (setGlobalUiSize (JSVal.num q) st).2 = false) := by
  refine ⟨fun h => ?_, fun h => ?_, rfl, fun h => ?_⟩
  · simp [setGlobalUiSize, h]
  · simp [setGlobalUiSize, not_lt.mpr h]
  · have h0 : 0 < q := by
      have : (0 : ℚ) < globalUiSizeRange.max := by norm_num [globalUiSizeRange]
      linarith
    simp [setGlobalUiSize, h0]

/-- Witness for C10: the setter accepts 5, a value strictly above the
declared registry maximum of 3.0, and rejects a non-number. -/
theorem setGlobalUiSize_accepts_any_positive_witness :
    (0 : ℚ) < 5 ∧ globalUiSizeRange.max < (5 : ℚ) ∧
    setGlobalUiSize (JSVal.num 5)
        { globalUiScale := 1, dims := calculateScaledDimensions 1, redrawCount := 0 } =
      ({ globalUiScale := 5
         dims := calculateScaledDimensions 5
         redrawCount := 0 + 1 }, false) ∧
    setGlobalUiSize JSVal.other
        { globalUiScale := 1, dims := calculateScaledDimensions 1, redrawCount := 0 } =
      ({ globalUiScale := 1, dims := calculateScaledDimensions 1, redrawCount := 0 }, true) :=
  ⟨by decide, by decide,
    (setGlobalUiSize_accepts_any_positive
      { globalUiScale := 1, dims := calculateScaledDimensions 1, redrawCount := 0 } 5).1
      (by decide),
    (setGlobalUiSize_accepts_any_positive
      { globalUiScale := 1, dims := calculateScaledDimensions 1, redrawCount := 0 } 5).2.2.1⟩

/-- Claim C5 counterexample (claim corrected): `setTopBarOpacity` rejects
the out-of-range value 1.5 — the stored opacity is kept — but emits NO
logged rejection: the method simply has no else branch, unlike the other
three opacity setters. -/
theorem setTopBarOpacity_rejects_silently :
    setTopBarOpacity (JSVal.num (3 / 2)) (7 / 10) =
      { value := 7 / 10, warned := false } := by
  rw [setTopBarOpacity]
  norm_num

/-- Claim C5 (amended): every opacity setter keeps the previously stored
value on any input that is not a number in `[0,1]` (no clamping, and the
embedding is total so no exception); the dial-image, marker and font
setters log a rejection, while the top-bar setter rejects silently. -/
theorem opacitySetters_reject_invalid (v : JSVal) (cur : ℚ)
    (hv : validOpacity v = false) :
    setTopBarOpacity v cur = { value := cur, warned := false } ∧
    setDialImageOpacity v cur = { value := cur, warned := true } ∧
    setDialMarkerOpacity v cur = { value := cur, warned := true } ∧
    setGlobalFontOpacity v cur = { value := cur, warned := true } := by
  cases v with
  | num q =>
      have h : ¬(0 ≤ q ∧ q ≤ 1) := by simpa [validOpacity] using hv
      refine ⟨?_, ?_, ?_, ?_⟩ <;>
        simp [setTopBarOpacity, setDialImageOpacity, setDialMarkerOpacity,
          setGlobalFontOpacity, h]
  | other =>
      exact ⟨rfl, rfl, rfl, rfl⟩

/-- Witness for the amended C5 at the out-of-range number 2 against a
stored opacity of 1. -/
theorem opacitySetters_reject_invalid_witness :
    validOpacity (JSVal.num 2) = false ∧
    (setTopBarOpacity (JSVal.num 2) 1 = { value := 1, warned := false } ∧
      setDialImageOpacity (JSVal.num 2) 1 = { value := 1, warned := true } ∧
      setDialMarkerOpacity (JSVal.num 2) 1 = { value := 1, warned := true } ∧
      setGlobalFontOpacity (JSVal.num 2) 1 = { value := 1, warned := true }) :=
  ⟨by decide, opacitySetters_reject_invalid (JSVal.num 2) 1 (by decide)⟩

/-- Claim C8 (confirmed): a broadcast weather message whose originator id
equals the local user's id leaves the local weather state untouched; a
`weather-update` from a different originator is applied (the stored label
becomes the broadcast label, and the rendered text its upper-casing when
the weather text exists). -/
theorem socketWeatherHandler_self_echo (data : SocketData) (uid : String)
    (st : WeatherView) :
    (data.userId = uid → socketWeatherHandler data uid st = st) ∧
    (data.type = "weather-update" → data.userId ≠ uid →
      (socketWeatherHandler data uid st).currentWeather = data.weather ∧
        (st.hasWeatherText = true →
          (socketWeatherHandler data uid st).displayedText =
            jsToUpperCase data.weather)) := by
  constructor
  · intro h
    simp [socketWeatherHandler, h]
  · intro ht hu
    cases hw : st.hasWeatherText <;>
      simp [socketWeatherHandler, ht, hu, updateWeatherDisplay, hw]

/-- Witness for C8: a self-echoed message is dropped; the same message
from another user is applied. -/
theorem socketWeatherHandler_self_echo_witness :
    socketWeatherHandler { type := "weather-update", weather := "Rainy", userId := "gm1" }
        "gm1" { currentWeather := "Clear", displayedText := "CLEAR", hasWeatherText := true } =
      { currentWeather := "Clear", displayedText := "CLEAR", hasWeatherText := true } ∧
    (socketWeatherHandler { type := "weather-update", weather := "Rainy", userId := "gm1" }
        "player2" { currentWeather := "Clear", displayedText := "CLEAR", hasWeatherText := true }).currentWeather =
      "Rainy" :=
  ⟨(socketWeatherHandler_self_echo
      { type := "weather-update", weather := "Rainy", userId := "gm1" } "gm1"
      { currentWeather := "Clear", displayedText := "CLEAR", hasWeatherText := true }).1 rfl,
   ((socketWeatherHandler_self_echo
      { type := "weather-update", weather := "Rainy", userId := "gm1" } "player2"
      { currentWeather := "Clear", displayedText := "CLEAR", hasWeatherText := true }).2 rfl
      (by decide)).1⟩

/-- Claim C9 counterexample (claim corrected): the "active but returning
no usable date" collaborator state does not map to one fixed placeholder:
a `null` return renders `SC: No object` while an object with no usable
date renders `SC: No date` — two different strings for the claim's single
no-date case. -/
theorem updateCalendarDisplay_two_noDate_placeholders :
    updateCalendarDisplay (CalendarProvider.active (Except.ok none)) = "SC: No object" ∧
    updateCalendarDisplay
        (CalendarProvider.active (Except.ok (some
          { date := "", day := "", monthName := "", year := "", yearPre := "", yearPost := "" }))) =
      "SC: No date" ∧
    ("SC: No object" : String) ≠ "SC: No date" := by
  refine ⟨rfl, ?_, by decide⟩
  simp [updateCalendarDisplay]

/-- Claim C9 (amended): `updateCalendarDisplay` is total (no collaborator
failure propagates) and renders a fixed placeholder per concrete case:
inactive → `SC not active`, provider raising → `SC: API Err`, provider
returning null → `SC: No object`, and an object with incomplete
day/month/year fields and a falsy date → `SC: No date`. -/
theorem updateCalendarDisplay_placeholders (dt : SCDateTime)
    (hmissing : dt.day = "" ∨ dt.monthName = "" ∨ dt.year = "")
    (hdate : dt.date = "") :
    updateCalendarDisplay CalendarProvider.inactive = "SC not active" ∧
    updateCalendarDisplay (CalendarProvider.active (Except.error ())) = "SC: API Err" ∧
    updateCalendarDisplay (CalendarProvider.active (Except.ok none)) = "SC: No object" ∧
    updateCalendarDisplay (CalendarProvider.active (Except.ok (some dt))) = "SC: No date" := by
  refine ⟨rfl, rfl, rfl, ?_⟩
  have h : ¬(dt.day ≠ "" ∧ dt.monthName ≠ "" ∧ dt.year ≠ "") := by tauto
  simp [updateCalendarDisplay, h, hdate]

/-- Witness for the amended C9 at the all-empty date object. -/
theorem updateCalendarDisplay_placeholders_witness :
    (("" : String) = "" ∨ ("" : String) = "" ∨ ("" : String) = "") ∧
    (updateCalendarDisplay CalendarProvider.inactive = "SC not active" ∧
      updateCalendarDisplay (CalendarProvider.active (Except.error ())) = "SC: API Err" ∧
      updateCalendarDisplay (CalendarProvider.active (Except.ok none)) = "SC: No object" ∧
      updateCalendarDisplay
          (CalendarProvider.active (Except.ok (some
            { date := "", day := "", monthName := "", year := "", yearPre := "", yearPost := "" }))) =
        "SC: No date") :=
  ⟨Or.inl rfl,
    updateCalendarDisplay_placeholders
      { date := "", day := "", monthName := "", year := "", yearPre := "", yearPost := "" }
      (Or.inl rfl) rfl⟩

/-- Claim C6 counterexample (claim corrected): the "is this a change"
check run when the dialog is submitted is NOT case-insensitive: with
current weather `Clear`, submitting `clear` — case-insensitively equal —
is treated as a change and applied.  The lower-casings agree, yet the
submit produces an update. -/
theorem weatherDialogSubmit_not_case_insensitive :
    weatherDialogSubmit ("clear") ("Clear") ("Clear") = some ("clear") ∧
    jsToLowerCase ("clear") = jsToLowerCase ("Clear") := by
  constructor
  · decide
  · decide

/-- Claim C6 (amended): the submit-time change check compares labels with
strict case-sensitive inequality and the applied label is exactly the
submitted text (case preserved: trimmed custom input, or the dropdown
value when the custom input is empty); the case-insensitive comparison is
used only to preselect the dropdown option; the rendered weather text is
always the stored label upper-cased (so input rainy displays as RAINY). -/
theorem weatherDialogSubmit_semantics (ci sv cw w : String)
    (h : weatherDialogSubmit ci sv cw = some w) :
    (w ≠ cw ∧ w = jsStrOr (jsTrim ci) sv) ∧
    (updateWeatherDisplay (some w)
        { currentWeather := cw, displayedText := jsToUpperCase cw, hasWeatherText := true }).currentWeather = w ∧
    (updateWeatherDisplay (some ("rainy"))
        { currentWeather := "Clear", displayedText := "CLEAR", hasWeatherText := true }).displayedText = "RAINY" ∧
    selectedWeatherOption ("CLEAR") = some ("Clear") := by
  refine ⟨?_, by simp [updateWeatherDisplay], by decide, by decide⟩
  rw [weatherDialogSubmit] at h
  split at h
  · next hcond =>
      cases h
      exact ⟨hcond.2, rfl⟩
  · exact absurd h (by simp)

/-- Witness for the amended C6: submitting the custom input rainy over
current weather Clear. -/
theorem weatherDialogSubmit_semantics_witness :
    weatherDialogSubmit ("rainy") ("Clear") ("Clear") = some ("rainy") ∧
    (("rainy" : String) ≠ "Clear" ∧ ("rainy" : String) = jsStrOr (jsTrim ("rainy")) ("Clear")) ∧
    (updateWeatherDisplay (some ("rainy"))
        { currentWeather := "Clear", displayedText := jsToUpperCase ("Clear"), hasWeatherText := true }).currentWeather =
      "rainy" :=
  ⟨by decide,
    (weatherDialogSubmit_semantics ("rainy") ("Clear") ("Clear") ("rainy") (by decide)).1,
    (weatherDialogSubmit_semantics ("rainy") ("Clear") ("Clear") ("rainy") (by decide)).2.1⟩

/-- Evaluation helper: the floor of `(a * d + x) / d` is `a` when
`0 ≤ x < d`. -/
lemma floor_mul_add_div (a : ℕ) (x d : ℚ) (hd : 0 < d) (hx0 : 0 ≤ x)
    (hxd : x < d) : ⌊((a : ℚ) * d + x) / d⌋ = a := by
  rw [Int.floor_eq_iff]
  constructor
  · rw [le_div_iff hd]
    push_cast
    linarith
  · rw [div_lt_iff hd]
    push_cast
    linarith

/-- Evaluation helper: `jsTrunc` agrees with the floor on the same
non-negative quotient. -/
lemma jsTrunc_mul_add_div (a : ℕ) (x d : ℚ) (hd : 0 < d) (hx0 : 0 ≤ x)
    (hxd : x < d) : jsTrunc (((a : ℚ) * d + x) / d) = a := by
  have h1 : (0 : ℚ) ≤ (a : ℚ) * d := mul_nonneg (by positivity) hd.le
  rw [jsTrunc, if_pos (div_nonneg (by linarith) hd.le)]
  exact floor_mul_add_div a x d hd hx0 hxd

/-- The hour digit pair extracted from `h*3600 + m*60 + s` is `h`. -/
lemma derivedHours_hms (h m s : ℕ) (hh : h < 24) (hm : m < 60) (hs : s < 60) :
    derivedHours ((h * 3600 + m * 60 + s : ℕ) : ℚ) = h := by
  have hx0 : (0 : ℚ) ≤ (m : ℚ) * 60 + s := by positivity
  have hxd : (m : ℚ) * 60 + s < 3600 := by
    have hn : (m * 60 + s : ℕ) < 3600 := by omega
    have : ((m * 60 + s : ℕ) : ℚ) < 3600 := by exact_mod_cast hn
    push_cast at this
    linarith
  have e : (((h * 3600 + m * 60 + s : ℕ) : ℚ)) =
      (h : ℚ) * 3600 + ((m : ℚ) * 60 + s) := by push_cast; ring
  rw [derivedHours, e,
    floor_mul_add_div h ((m : ℚ) * 60 + s) 3600 (by norm_num) hx0 hxd, jsIntMod]
  rw [Int.tmod_eq_emod (by positivity) (by norm_num),
    Int.emod_eq_of_lt (by positivity) (by exact_mod_cast hh)]

/-- Source `worldTime % 3600` at `h*3600 + m*60 + s` is `m*60 + s`. -/
lemma jsMod_hms_3600 (h m s : ℕ) (hm : m < 60) (hs : s < 60) :
    jsMod ((h * 3600 + m * 60 + s : ℕ) : ℚ) 3600 = (m : ℚ) * 60 + s := by
  have hx0 : (0 : ℚ) ≤ (m : ℚ) * 60 + s := by positivity
  have hxd : (m : ℚ) * 60 + s < 3600 := by
    have hn : (m * 60 + s : ℕ) < 3600 := by omega
    have : ((m * 60 + s : ℕ) : ℚ) < 3600 := by exact_mod_cast hn
    push_cast at this
    linarith
  have e : (((h * 3600 + m * 60 + s : ℕ) : ℚ)) =
      (h : ℚ) * 3600 + ((m : ℚ) * 60 + s) := by push_cast; ring
  rw [jsMod, e, jsTrunc_mul_add_div h ((m : ℚ) * 60 + s) 3600 (by norm_num) hx0 hxd]
  push_cast
  ring

/-- The minute digit pair extracted from `h*3600 + m*60 + s` is `m`. -/
lemma derivedMinutes_hms (h m s : ℕ) (hh : h < 24) (hm : m < 60) (hs : s < 60) :
    derivedMinutes ((h * 3600 + m * 60 + s : ℕ) : ℚ) = m := by
  rw [derivedMinutes, jsMod_hms_3600 h m s hm hs]
  exact floor_mul_add_div m s 60 (by norm_num) (by positivity) (by exact_mod_cast hs)

/-- The second digit pair extracted from `h*3600 + m*60 + s` is `s`. -/
lemma derivedSeconds_hms (h m s : ℕ) (hh : h < 24) (hm : m < 60) (hs : s < 60) :
    derivedSeconds ((h * 3600 + m * 60 + s : ℕ) : ℚ) = s := by
  have hx0 : (0 : ℚ) ≤ (s : ℚ) := by positivity
  have hxd : (s : ℚ) < 60 := by exact_mod_cast hs
  have e : (((h * 3600 + m * 60 + s : ℕ) : ℚ)) =
      ((h * 60 + m : ℕ) : ℚ) * 60 + (s : ℚ) := by push_cast; ring
  have hmod : jsMod ((h * 3600 + m * 60 + s : ℕ) : ℚ) 60 = (s : ℚ) := by
    rw [jsMod, e, jsTrunc_mul_add_div (h * 60 + m) (s : ℚ) 60 (by norm_num) hx0 hxd]
    push_cast
    ring
  rw [derivedSeconds, hmod]
  exact Int.floor_natCast s

/-- Source `toString` on an integer obtained by casting a natural agrees with
`toString` on the natural. -/
lemma toString_intCast (n : ℕ) : toString ((n : ℤ)) = toString n := rfl

/-- Claim C3 (confirmed): rendering world time `h*3600 + m*60 + s` (with
`h < 24`, `m, s < 60`) yields the zero-padded `HH:MM` string, or
`HH:MM:SS` with the seconds display enabled; in particular world time
3661 renders as `01:01`, and as `01:01:01` with seconds. -/
theorem renderTime_roundtrip (h m s : ℕ) (hh : h < 24) (hm : m < 60)
    (hs : s < 60) :
    renderTime ((h * 3600 + m * 60 + s : ℕ) : ℚ) false = specTimeString h m s false ∧
    renderTime ((h * 3600 + m * 60 + s : ℕ) : ℚ) true = specTimeString h m s true ∧
    renderTime 3661 false = "01:01" ∧
    renderTime 3661 true = "01:01:01" := by
  have e1 := derivedHours_hms h m s hh hm hs
  have e2 := derivedMinutes_hms h m s hh hm hs
  have e3 := derivedSeconds_hms h m s hh hm hs
  have c1 : derivedHours 3661 = 1 := by
    rw [show ((3661 : ℚ)) = ((1 * 3600 + 1 * 60 + 1 : ℕ) : ℚ) by norm_num]
    exact derivedHours_hms 1 1 1 (by omega) (by omega) (by omega)
  have c2 : derivedMinutes 3661 = 1 := by
    rw [show ((3661 : ℚ)) = ((1 * 3600 + 1 * 60 + 1 : ℕ) : ℚ) by norm_num]
    exact derivedMinutes_hms 1 1 1 (by omega) (by omega) (by omega)
  have c3 : derivedSeconds 3661 = 1 := by
    rw [show ((3661 : ℚ)) = ((1 * 3600 + 1 * 60 + 1 : ℕ) : ℚ) by norm_num]
    exact derivedSeconds_hms 1 1 1 (by omega) (by omega) (by omega)
  refine ⟨?_, ?_, ?_, ?_⟩
  · simp only [renderTime, specTimeString, e1, e2, toString_intCast,
      Bool.false_eq_true, if_false]
    simp
  · simp only [renderTime, specTimeString, e1, e2, e3, toString_intCast, if_true]
    simp [String.append_assoc]
  · simp only [renderTime, c1, c2, Bool.false_eq_true, if_false]
    decide
  · simp only [renderTime, c1, c2, c3, if_true]
    decide

/-- Witness for C3 at `h = m = s = 1` (world time 3661). -/
theorem renderTime_roundtrip_witness :
    ((1 : ℕ) < 24 ∧ (1 : ℕ) < 60) ∧
    renderTime ((1 * 3600 + 1 * 60 + 1 : ℕ) : ℚ) false = specTimeString 1 1 1 false ∧
    renderTime ((1 * 3600 + 1 * 60 + 1 : ℕ) : ℚ) true = specTimeString 1 1 1 true :=
  ⟨⟨by decide, by decide⟩,
    (renderTime_roundtrip 1 1 1 (by decide) (by decide) (by decide)).1,
    (renderTime_roundtrip 1 1 1 (by decide) (by decide) (by decide)).2.1⟩

/-- Claim C4 counterexample (claim corrected): for the negative world
time −1 — which the claim's "no non-negativity restriction" admits — the
derived hour, minute and second are all −1, so the derived hour does NOT
lie in `[0,24)` and the rendered string is `-1:-1`, not a zero-padded
`HH:MM`. -/
theorem derivedTime_negative_counterexample :
    derivedHours (-1) = -1 ∧ derivedMinutes (-1) = -1 ∧ derivedSeconds (-1) = -1 ∧
    ¬(0 ≤ derivedHours (-1)) ∧ renderTime (-1) false = "-1:-1" := by
  have h1 : derivedHours (-1) = -1 := by
    rw [derivedHours, jsIntMod]
    norm_num
    decide
  have h2 : derivedMinutes (-1) = -1 := by
    have hc : ⌈((-1 : ℚ) / 3600)⌉ = 0 := by
      rw [Int.ceil_eq_zero_iff, Set.mem_Ioc]
      constructor <;> norm_num
    rw [derivedMinutes, jsMod, jsTrunc, if_neg (by norm_num), hc]
    norm_num
  have h3 : derivedSeconds (-1) = -1 := by
    have hc : ⌈((-1 : ℚ) / 60)⌉ = 0 := by
      rw [Int.ceil_eq_zero_iff, Set.mem_Ioc]
      constructor <;> norm_num
    rw [derivedSeconds, jsMod, jsTrunc, if_neg (by norm_num), hc]
    norm_num
  refine ⟨h1, h2, h3, by rw [h1]; decide, ?_⟩
  simp only [renderTime, h1, h2, Bool.false_eq_true, if_false]
  decide

/-- Bounds for the JS remainder with a non-negative dividend and positive
divisor. -/
lemma jsMod_bounds (x y : ℚ) (hx : 0 ≤ x) (hy : 0 < y) :
    0 ≤ jsMod x y ∧ jsMod x y < y := by
  rw [jsMod, jsTrunc, if_pos (div_nonneg hx hy.le)]
  have h1 := Int.floor_le (x / y)
  have h2 := Int.lt_floor_add_one (x / y)
  have hxy : y * (x / y) = x := by field_simp
  constructor
  · have := mul_le_mul_of_nonneg_left h1 hy.le
    rw [hxy] at this
    linarith
  · have := mul_lt_mul_of_pos_left h2 hy
    rw [hxy] at this
    linarith

/-- Claim C4 (amended): for every NON-NEGATIVE world time, the rendering
arithmetic is total and the derived hour lies in `[0,24)`, the derived
minute in `[0,60)` and the derived second in `[0,60)`. -/
theorem derivedTime_in_range (wt : ℚ) (hwt : 0 ≤ wt) :
    (0 ≤ derivedHours wt ∧ derivedHours wt < 24) ∧
    (0 ≤ derivedMinutes wt ∧ derivedMinutes wt < 60) ∧
    (0 ≤ derivedSeconds wt ∧ derivedSeconds wt < 60) := by
  have hm36 := jsMod_bounds wt 3600 hwt (by norm_num)
  have hm60 := jsMod_bounds wt 60 hwt (by norm_num)
  refine ⟨⟨?_, ?_⟩, ⟨?_, ?_⟩, ⟨?_, ?_⟩⟩
  · rw [derivedHours, jsIntMod]
    exact Int.tmod_nonneg 24 (Int.le_floor.mpr (by simpa using div_nonneg hwt (by norm_num)))
  · rw [derivedHours, jsIntMod]
    exact Int.tmod_lt_of_pos _ (by norm_num)
  · rw [derivedMinutes]
    exact Int.le_floor.mpr (by simpa using div_nonneg hm36.1 (by norm_num))
  · rw [derivedMinutes]
    refine Int.floor_lt.mpr ?_
    rw [div_lt_iff (by norm_num)]
    push_cast
    linarith [hm36.2]
  · rw [derivedSeconds]
    exact Int.le_floor.mpr (by simpa using hm60.1)
  · rw [derivedSeconds]
    refine Int.floor_lt.mpr ?_
    push_cast
    linarith [hm60.2]

/-- Witness for the amended C4 at world time 3661. -/
theorem derivedTime_in_range_witness :
    (0 : ℚ) ≤ 3661 ∧
    ((0 ≤ derivedHours 3661 ∧ derivedHours 3661 < 24) ∧
      (0 ≤ derivedMinutes 3661 ∧ derivedMinutes 3661 < 60) ∧
      (0 ≤ derivedSeconds 3661 ∧ derivedSeconds 3661 < 60)) :=
  ⟨by decide, derivedTime_in_range 3661 (by decide)⟩

/-- Claim C1 counterexample (claim corrected), two concrete deviations:
(1) with stored angle offset 0 — inside the declared `[0,360]` range —
and world time 0, the code rotates by π/2 (the `|| 90` fallback replaces
the stored 0 by 90), while the claimed formula gives 0;
(2) with offset 90 and world time 1800 (half past hour 0), the code uses
the fractional hour 0.5, so its rotation differs from the claimed formula
applied to the derived hour 0. -/
theorem updateDialRotation_counterexample :
    updateDialRotation 0 0 ≠ claimRotation 0 0 ∧
    updateDialRotation 1800 90 ≠ claimRotation 0 90 := by
  have hπ := Real.pi_pos
  have hf0 : jsTruncR ((0 : ℝ) / 3600 / 24) = 0 := by
    rw [jsTruncR, if_pos (by norm_num)]
    norm_num
  have hf1 : jsTruncR ((1800 : ℝ) / 3600 / 24) = 0 := by
    rw [jsTruncR, if_pos (by norm_num)]
    rw [show ((1800 : ℝ) / 3600 / 24) = 1 / 48 by norm_num]
    rw [Int.floor_eq_zero_iff, Set.mem_Ico]
    constructor <;> norm_num
  constructor
  · simp only [updateDialRotation, claimRotation, jsModR, jsNumOr,
      degreesToRadians, hf0]
    norm_num
    intro habs
    nlinarith
  · simp only [updateDialRotation, claimRotation, jsModR, jsNumOr,
      degreesToRadians, hf1]
    norm_num
    intro habs
    nlinarith

/-- Claim C1 (amended): the dial sprite's rotation equals the claimed
formula `(hour/24)*2π + degreesToRadians(offset)` once `hour` is read as
the possibly-fractional hour `(worldTime/3600) % 24` (the code applies no
`Math.floor`) and the effective offset is the stored angle offset when it
is non-zero, and 90 when the stored value is 0 (the `|| 90` fallback). -/
theorem updateDialRotation_formula (wt offs : ℝ) :
    updateDialRotation wt offs =
      claimRotation (jsModR (wt / 3600) 24) (if offs = 0 then 90 else offs) := by
  simp only [updateDialRotation, claimRotation, jsNumOr, degreesToRadians]
  split <;> ring

/-- Reasserting the weather text leaves it the last child. -/
lemma ensureWeatherTextOnTop_getLast (c : List Elem)
    (h : Elem.weatherText ∈ c) :
    (ensureWeatherTextOnTop c).getLast? = some Elem.weatherText := by
  rw [ensureWeatherTextOnTop, if_pos h]
  exact List.getLast?_concat _

/-- Reasserting the weather text keeps it a child. -/
lemma mem_ensureWeatherTextOnTop (c : List Elem)
    (h : Elem.weatherText ∈ c) :
    Elem.weatherText ∈ ensureWeatherTextOnTop c := by
  rw [ensureWeatherTextOnTop, if_pos h]
  simp

/-- Source `_drawWeatherText` always leaves the weather text among the children. -/
lemma mem_drawWeatherText (c : List Elem) :
    Elem.weatherText ∈ drawWeatherText c := by
  rw [drawWeatherText]
  exact mem_ensureWeatherTextOnTop _ (by simp)

/-- Source `_createDialInteractiveArea` never removes the weather text. -/
lemma mem_createDialInteractiveArea (isGM : Bool) (c : List Elem)
    (h : Elem.weatherText ∈ c) :
    Elem.weatherText ∈ createDialInteractiveArea isGM c := by
  rw [createDialInteractiveArea]
  split
  · exact List.mem_append_left _ ((List.mem_erase_of_ne (by decide)).mpr h)
  · exact h

/-- After a full `_redrawAllElements` pass the weather text is a child. -/
lemma mem_redrawAllElements (isGM textureOk radiusPos : Bool) (c : List Elem) :
    Elem.weatherText ∈ redrawAllElements isGM textureOk radiusPos c := by
  rw [redrawAllElements]
  exact mem_ensureWeatherTextOnTop _
    (mem_createDialInteractiveArea _ _ (mem_drawWeatherText _))

/-- Claim C2 (confirmed): after every redraw of the scene — the initial
full draw, the full redraw triggered by a scale change, the full redraw
triggered by a font change, and a weather update — the weather text
primitive, when it exists, is the last child of the main container
(topmost in rendering order); after a full redraw it always exists. -/
theorem weatherText_always_topmost (isGM textureOk radiusPos : Bool)
    (c : List Elem) :
    (redrawAllElements isGM textureOk radiusPos c).getLast? = some Elem.weatherText ∧
    (scaleChangeChildren isGM textureOk radiusPos c).getLast? = some Elem.weatherText ∧
    (fontChangeChildren isGM textureOk radiusPos c).getLast? = some Elem.weatherText ∧
    (Elem.weatherText ∈ c →
      (weatherSocketChildren c).getLast? = some Elem.weatherText) := by
  have hmem := mem_redrawAllElements isGM textureOk radiusPos c
  have hredraw : (redrawAllElements isGM textureOk radiusPos c).getLast? =
      some Elem.weatherText := by
    rw [redrawAllElements]
    exact ensureWeatherTextOnTop_getLast _
      (mem_createDialInteractiveArea _ _ (mem_drawWeatherText _))
  refine ⟨hredraw, ?_, ?_, ?_⟩
  · rw [scaleChangeChildren, updateTimeDisplayChildren,
      updateCalendarDisplayChildren, updateWeatherDisplayChildren, if_pos hmem]
    exact ensureWeatherTextOnTop_getLast _ hmem
  · rw [fontChangeChildren, updateTimeDisplayChildren,
      updateCalendarDisplayChildren, updateWeatherDisplayChildren, if_pos hmem]
    exact ensureWeatherTextOnTop_getLast _ hmem
  · intro h
    rw [weatherSocketChildren, updateWeatherDisplayChildren, if_pos h]
    exact ensureWeatherTextOnTop_getLast _
      (mem_ensureWeatherTextOnTop _ h)

/-- Witness for C2 on a concrete scene: a GM client with a loaded texture
and positive dial radius, starting from a display list holding only the
weather text. -/
theorem weatherText_always_topmost_witness :
    Elem.weatherText ∈ [Elem.weatherText] ∧
    (redrawAllElements true true true [Elem.weatherText]).getLast? =
      some Elem.weatherText ∧
    (weatherSocketChildren [Elem.weatherText]).getLast? = some Elem.weatherText :=
  ⟨by decide,
    (weatherText_always_topmost true true true [Elem.weatherText]).1,
    (weatherText_always_topmost true true true [Elem.weatherText]).2.2.2 (by decide)⟩

end SolunaDial
